import Mathlib

/-!
Verification development for the NetCDF-to-Excel viewer (src/main.py).

The embedding models, in order:
  * the Python string primitives the export path uses
    (ASCII str.lower, int() literal parsing, pandas DataFrame.head),
  * the export/windowing function convert_to_excel_and_download,
  * the flattener convert_to_dataframe (xarray to_dataframe + reset_index),
  * the descriptive-statistics / preview rendering block,
  * the two Streamlit cache tiers (st.cache_resource keyed by payload bytes,
    st.cache_data keyed by the var_name argument only, since _data_array is
    underscore-prefixed and therefore excluded from the cache key),
  * a pivot engine modelled from the specification (the repository itself
    contains no pivot code).
-/

namespace NcToExcel

/-- ASCII digit test, written over the character's code point.
Models the digit class accepted by Python's int() for base 10
(restricted to ASCII; Python's additional Unicode digits are out of scope). -/
def isDigitChar (c : Char) : Bool := 48 ≤ c.toNat && c.toNat ≤ 57

/-- Numeric value of an ASCII digit character. -/
def digitVal (c : Char) : Nat := c.toNat - 48

/-- ASCII whitespace stripped by Python's int() before parsing:
space, tab, newline, carriage return, vertical tab, form feed
(Unicode whitespace is out of scope). -/
def isPySpace (c : Char) : Bool :=
  c.toNat = 32 || c.toNat = 9 || c.toNat = 10 || c.toNat = 13 ||
  c.toNat = 11 || c.toNat = 12

/-- Strip leading and trailing whitespace, as Python's int() does. -/
def pyStrip (cs : List Char) : List Char :=
  ((cs.dropWhile isPySpace).reverse.dropWhile isPySpace).reverse

/-- One character of Python str.lower(), restricted to ASCII:
code points 65..90 are shifted to 97..122, everything else unchanged. -/
def charLower (c : Char) : Char :=
  if 65 ≤ c.toNat ∧ c.toNat ≤ 90 then Char.ofNat (c.toNat + 32) else c

/-- Python str.lower() (ASCII subset). -/
def pyLower (s : String) : String := ⟨s.data.map charLower⟩

/-- Remainder of Python's int() digit grammar after the first digit:
digits, with single underscores allowed only between two digits. -/
def digitsRest (acc : Nat) : List Char → Option Nat
  | [] => some acc
  | c :: cs =>
    if isDigitChar c then digitsRest (acc * 10 + digitVal c) cs
    else if c.toNat = 95 then
      match cs with
      | [] => none
      | c2 :: cs2 =>
        if isDigitChar c2 then digitsRest (acc * 10 + digitVal c2) cs2 else none
    else none

/-- Python's int() digit part: a nonempty digit sequence, with single
underscores allowed between digits. -/
def digitpart : List Char → Option Nat
  | [] => none
  | c :: cs => if isDigitChar c then digitsRest (digitVal c) cs else none

/-- Python's int(str) for base 10: optional surrounding whitespace,
one optional sign, then a digit part. Returns none where Python
raises ValueError. -/
def parseIntStr (s : String) : Option Int :=
  let cs := pyStrip s.data
  match cs with
  | [] => none
  | c :: rest =>
    if c.toNat = 45 then (digitpart rest).map (fun n => -(n : Int))
    else if c.toNat = 43 then (digitpart rest).map (fun n => (n : Int))
    else (digitpart cs).map (fun n => (n : Int))

/-- pandas DataFrame.head(n): the first n rows for n ≥ 0, and all rows
except the last |n| rows for n < 0. -/
def pdHead (df : List α) (n : Int) : List α :=
  if 0 ≤ n then df.take n.toNat
  else df.take (df.length - (-n).toNat)

/-- convert_to_excel_and_download from src/main.py.  A table is embedded as
its list of rows; the Excel serialization (pandas ExcelWriter/xlsxwriter) is
an external collaborator, so the byte payload is represented by the exact
list of rows handed to the serializer.  Returns (exported rows, file name). -/
def convert_to_excel_and_download (df : List α) (num_rows : String)
    (var_name : String) : List α × String :=
  let p :=
    if pyLower num_rows = "all" then (df, "ALL")
    else
      match parseIntStr num_rows with
      | some limit => (pdHead df limit, "Top" ++ toString limit)
      | none => (pdHead df 100, "Top100")
  (p.1, var_name ++ "_" ++ p.2 ++ ".xlsx")

/-- A named array variable as decoded by xarray: an ordered list of axis
(dimension) names, one coordinate sequence per axis, and the raw array in
row-major (C) order, the first axis varying slowest. -/
structure Variable (α : Type) where
  name : String
  dims : List String
  coords : List (List α)
  data : List α
  deriving DecidableEq, Repr

/-- A pandas DataFrame after reset_index: ordered column names and ordered
rows, each row one cell list in column order. -/
structure DataFrame (α : Type) where
  columns : List String
  rows : List (List α)
  deriving DecidableEq, Repr

/-- Cartesian product of the coordinate sequences in row-major order:
the first axis varies slowest, matching the row order produced by
xarray to_dataframe on a C-ordered array. -/
def cartesianProd : List (List α) → List (List α)
  | [] => [[]]
  | axis :: rest =>
    (axis.map (fun c => (cartesianProd rest).map (fun t => c :: t))).flatten

deriving instance DecidableEq for Except

set_option linter.unusedVariables false in
/-- convert_to_dataframe from src/main.py: _data_array.to_dataframe().reset_index().
Columns are the axis names in order followed by one value column named after
the variable; rows pair each coordinate combination (row-major) with the
corresponding array element.  Two error paths of the embedded xarray calls
are made explicit: xarray refuses to construct a DataArray whose array size
disagrees with the product of the declared axis lengths (it raises at decode
time, before this function can run - the outer guard, surfaced as
ShapeMismatch), and DataArray.to_dataframe raises ValueError on a
0-dimensional array (it cannot convert a scalar to a DataFrame - the inner
guard).  The var_name argument is the Streamlit cache key and, as in the
source, is not used by the body. -/
def convert_to_dataframe (var_name : String) (v : Variable α) :
    Except String (DataFrame α) :=
  if v.data.length = (v.coords.map List.length).prod then
    if v.dims = [] then
      Except.error "ValueError: cannot convert a scalar to a DataFrame"
    else
      Except.ok
        { columns := v.dims ++ [v.name]
          rows := ((cartesianProd v.coords).zip v.data).map (fun p => p.1 ++ [p.2]) }
  else
    Except.error "ShapeMismatch"

/-- The pandas Series.describe() summary block over the value column.
pandas reports std, the square root of the ddof-1 variance; the square root
of a rational is irrational in general, so the block records the variance
itself (std is determined by it through a strictly monotone map).  For
fewer than two observations pandas reports NaN for std; modelled as 0. -/
structure StatsBlock where
  count : Nat
  mean : ℚ
  varDdof1 : ℚ
  minV : ℚ
  q25 : ℚ
  q50 : ℚ
  q75 : ℚ
  maxV : ℚ
  deriving DecidableEq, Repr

/-- Insertion into a sorted list, ascending. -/
def sortedInsert (x : ℚ) : List ℚ → List ℚ
  | [] => [x]
  | y :: ys => if x ≤ y then x :: y :: ys else y :: sortedInsert x ys

/-- Ascending insertion sort, used only to compute order statistics. -/
def sortQ (xs : List ℚ) : List ℚ := xs.foldr sortedInsert []

/-- Quantile with linear interpolation on an ascending list, the scheme
pandas describe() uses: position q * (n - 1), value interpolated between
the two neighbouring order statistics. -/
def quantileLinear (s : List ℚ) (q : ℚ) : ℚ :=
  match s with
  | [] => 0
  | _ :: _ =>
    let p : ℚ := q * ((s.length : ℚ) - 1)
    let i : Nat := (Rat.floor p).toNat
    let f : ℚ := p - (Rat.floor p : ℚ)
    let a := s.getD i 0
    let b := s.getD (i + 1) a
    a + f * (b - a)

/-- pandas Series.describe() over rational data: count, mean, ddof-1
variance (standing in for std, see StatsBlock), min, quartiles, max. -/
def describeQ (xs : List ℚ) : StatsBlock :=
  let n := xs.length
  let s := sortQ xs
  let mean : ℚ := if n = 0 then 0 else xs.sum / (n : ℚ)
  let var1 : ℚ :=
    if n ≤ 1 then 0
    else (xs.map (fun x => (x - mean) * (x - mean))).sum / ((n : ℚ) - 1)
  { count := n, mean := mean, varDdof1 := var1,
    minV := s.headD 0, q25 := quantileLinear s (1 / 4),
    q50 := quantileLinear s (1 / 2), q75 := quantileLinear s (3 / 4),
    maxV := s.getLastD 0 }

/-- Index of a column name in a column list, pandas df[c] selection. -/
def colIdx : List String → String → Option Nat
  | [], _ => none
  | c :: rest, key => if c = key then some 0 else (colIdx rest key).map (· + 1)

/-- pandas df[c]: the cells of the named column, in row order. -/
def selectColumn (df : DataFrame ℚ) (c : String) : List ℚ :=
  match colIdx df.columns c with
  | some i => df.rows.map (fun r => r.getD i 0)
  | none => []

/-- What the preview block of src/main.py (lines 147-171) renders:
the row-count metric, the descriptive-statistics block, and the preview
table.  The preview is an Except because an unparsable non-all preview
limit makes int() raise ValueError (caught by the surrounding handler). -/
structure ViewModel where
  totalRows : Nat
  stats : StatsBlock
  preview : Except String (List (List ℚ))
  deriving DecidableEq

/-- The preview/statistics rendering block from src/main.py: total_rows is
len(df); the statistics are df[var].describe() over the full DataFrame; the
preview table is df when the preview limit lowers to all, and
df.head(int(limit)) otherwise. -/
def renderMainView (df : DataFrame ℚ) (var : String)
    (selected_preview : String) : ViewModel :=
  { totalRows := df.rows.length
    stats := describeQ (selectColumn df var)
    preview :=
      if pyLower selected_preview = "all" then Except.ok df.rows
      else
        match parseIntStr selected_preview with
        | some limit => Except.ok (pdHead df.rows limit)
        | none => Except.error "ValueError" }

/-- Association-list lookup used to model the Streamlit cache dictionaries
and xarray dataset variable access. -/
def cacheLookup {κ β : Type} [DecidableEq κ] : List (κ × β) → κ → Option β
  | [], _ => none
  | (k, v) :: rest, key => if key = k then some v else cacheLookup rest key

/-- A decoded dataset handle: variable name to Variable. -/
abbrev Dataset (α : Type) := List (String × Variable α)

/-- The two Streamlit cache tiers of src/main.py: st.cache_resource for
load_netcdf_file keyed by the payload bytes, and st.cache_data for
convert_to_dataframe keyed only by the var_name argument, because the
_data_array parameter's leading underscore excludes it from the key. -/
structure Session (α : Type) where
  resourceCache : List (List Nat × Dataset α)
  dataCache : List (String × DataFrame α)
  deriving DecidableEq

/-- load_netcdf_file through st.cache_resource: decode the payload on a
cache miss and memoize the handle under the payload bytes. -/
def load_netcdf_file (decode : List Nat → Dataset α) (s : Session α)
    (file_bytes : List Nat) : Dataset α × Session α :=
  match cacheLookup s.resourceCache file_bytes with
  | some ds => (ds, s)
  | none =>
    let ds := decode file_bytes
    (ds, { s with resourceCache := (file_bytes, ds) :: s.resourceCache })

/-- convert_to_dataframe through st.cache_data: the cache key is var_name
alone; a hit returns the stored DataFrame without looking at the variable,
and an entry is committed only after a successful computation. -/
def cachedConvert (s : Session α) (var_name : String) (v : Variable α) :
    Except String (DataFrame α) × Session α :=
  match cacheLookup s.dataCache var_name with
  | some df => (Except.ok df, s)
  | none =>
    match convert_to_dataframe var_name v with
    | Except.ok df => (Except.ok df, { s with dataCache := (var_name, df) :: s.dataCache })
    | Except.error e => (Except.error e, s)

/-- One preview request of the app: load the uploaded payload through the
resource cache, select ds[var], and flatten it through the data cache. -/
def serveRequest (decode : List Nat → Dataset α) (s : Session α)
    (file_bytes : List Nat) (var : String) :
    Except String (DataFrame α) × Session α :=
  let r := load_netcdf_file decode s file_bytes
  match cacheLookup r.1 var with
  | none => (Except.error "KeyError", r.2)
  | some v => cachedConvert r.2 var v

/-- The no-file branch of src/main.py (lines 202-208): it calls only
st.cache_resource.clear(), so the data-cache tier keeps its entries. -/
def clearOnNoFile (s : Session α) : Session α :=
  { resourceCache := [], dataCache := s.dataCache }

/-- The errors of the pivot engine of spec section 4.2. -/
inductive PivotError where
  | columnNameCollision
  deriving DecidableEq, Repr

/-- Modelled from the spec: the input of the pivot engine (section 4.2),
which the repository's source does not implement.  A flattened table seen as
its axis-column names, the value-column name, and one (coordinate values,
cell value) pair per row; coordinate values are carried as the strings they
stringify to, since pivot output column names are built from them. -/
structure PivotInput (α : Type) where
  axes : List String
  valueName : String
  rows : List (List String × α)
  deriving DecidableEq, Repr

/-- Modelled from the spec: the pivoted table of section 4.2 - rows keyed by
row-axis value combinations, one output value column per column-axis value
combination, and an explicit missing marker for absent combinations. -/
structure PivotOutput (α : Type) where
  rowColumns : List String
  valueColumns : List String
  rows : List (List String × List (Option α))
  deriving DecidableEq, Repr

/-- Position of an axis name in the axis list (first match). -/
def axisIdx : List String → String → Nat
  | [], _ => 0
  | a :: rest, key => if a = key then 0 else axisIdx rest key + 1

/-- The coordinate values of one row restricted to the chosen axes,
in the chosen order. -/
def axisValues (axes chosen : List String) (coords : List String) : List String :=
  chosen.map (fun a => coords.getD (axisIdx axes a) "")

/-- Deduplication preserving the order of first appearance. -/
def dedupFS {β : Type} [DecidableEq β] (l : List β) : List β :=
  l.foldl (fun acc x => if x ∈ acc then acc else acc ++ [x]) []

/-- Modelled from the spec: the distinct column-axis value combinations of a
table, in order of first appearance. -/
def colCombos (t : PivotInput α) (colAxes : List String) : List (List String) :=
  dedupFS (t.rows.map (fun r => axisValues t.axes colAxes r.1))

/-- Modelled from the spec: the canonical separator joining the column-axis
values of one combination into an output column name. -/
def joinSep (parts : List String) : String := String.intercalate "_" parts

/-- Modelled from the spec: the cell for one (row combination, column
combination) pair - the value of the unique source row matching both, or
none for a missing combination. -/
def lookupCell (t : PivotInput α) (rowAxes colAxes : List String)
    (rk ck : List String) : Option α :=
  (t.rows.find? (fun r =>
    axisValues t.axes rowAxes r.1 == rk && axisValues t.axes colAxes r.1 == ck)).map (·.2)

/-- Modelled from the spec: the pivot engine of section 4.2, absent from the
source.  With no column axes it is the identity transform; otherwise rows
are grouped by row-axis values in first-seen order, one output column is
emitted per distinct column-axis combination, and the engine signals
ColumnNameCollision when two distinct combinations stringify to the same
column name instead of silently overwriting a column. -/
def pivot (t : PivotInput α) (rowAxes colAxes : List String) :
    Except PivotError (PivotOutput α) :=
  if colAxes = [] then
    Except.ok
      { rowColumns := t.axes, valueColumns := [t.valueName]
        rows := t.rows.map (fun r => (r.1, [some r.2])) }
  else
    let combos := colCombos t colAxes
    let names := combos.map joinSep
    if names.Nodup then
      let rowKeys := dedupFS (t.rows.map (fun r => axisValues t.axes rowAxes r.1))
      Except.ok
        { rowColumns := rowAxes, valueColumns := names
          rows := rowKeys.map (fun rk =>
            (rk, combos.map (fun ck => lookupCell t rowAxes colAxes rk ck))) }
    else
      Except.error PivotError.columnNameCollision

/-- First demo payload: variable temp with data [10, 20]. -/
def dsA : Dataset Nat :=
  [("temp", { name := "temp", dims := ["t"], coords := [[0, 1]], data := [10, 20] })]

/-- Second, different demo payload: a variable of the same name temp but
with data [30, 40]. -/
def dsB : Dataset Nat :=
  [("temp", { name := "temp", dims := ["t"], coords := [[0, 1]], data := [30, 40] })]

/-- A decoder mapping payload [0] to the first demo dataset and payload [1]
to the second. -/
def demoDecode : List Nat → Dataset Nat :=
  fun b => if b = [0] then dsA else dsB

/-- The session state after uploading payload [0] and previewing temp. -/
def sessionAfterA : Session Nat :=
  (serveRequest demoDecode { resourceCache := [], dataCache := [] } [0] "temp").2

/-- The scalar demo variable: no axes, one value. -/
def scalarDemo : Variable Nat := { name := "c", dims := [], coords := [], data := [42] }

/-- A demo variable with two axes of lengths 3 and 2. -/
def gridDemo : Variable Nat :=
  { name := "temp", dims := ["time", "station"], coords := [[0, 1, 2], [7, 8]],
    data := [10, 11, 12, 13, 14, 15] }

/-- A table in which the column-axis combinations x_y,z and x,y_z collide
on the joined name x_y_z. -/
def collisionDemo : PivotInput Nat :=
  { axes := ["a", "b"], valueName := "v"
    rows := [(["x_y", "z"], 1), (["x", "y_z"], 2)] }

theorem charLower_toNat (c x : Char) (h : charLower c = x) :
    c.toNat = x.toNat ∨ (65 ≤ c.toNat ∧ c.toNat ≤ 90) := by
  unfold charLower at h
  by_cases hc : 65 ≤ c.toNat ∧ c.toNat ≤ 90
  · exact Or.inr hc
  · rw [if_neg hc] at h
    exact Or.inl (by rw [h])

/-- A character whose ASCII lowercase is a lowercase letter is neither a
digit, nor whitespace, nor a sign character. -/
theorem not_numeric_of_charLower (c x : Char) (h : charLower c = x)
    (hx : 91 ≤ x.toNat) :
    isDigitChar c = false ∧ isPySpace c = false ∧ c.toNat ≠ 45 ∧ c.toNat ≠ 43 := by
  rcases charLower_toNat c x h with h1 | h1 <;>
    refine ⟨?_, ?_, ?_, ?_⟩ <;> simp [isDigitChar, isPySpace] <;> omega

theorem pyLower_all_data (s : String) (h : pyLower s = "all") :
    ∃ c1 c2 c3, s.data = [c1, c2, c3] ∧
      charLower c1 = 'a' ∧ charLower c2 = 'l' ∧ charLower c3 = 'l' := by
  have hd : s.data.map charLower = ['a', 'l', 'l'] := congrArg String.data h
  rcases hs : s.data with _ | ⟨c1, _ | ⟨c2, _ | ⟨c3, _ | ⟨c4, t⟩⟩⟩⟩ <;>
    rw [hs] at hd <;>
    simp only [List.map_cons, List.map_nil, List.cons.injEq, and_true,
      and_false, List.nil_eq, reduceCtorEq] at hd
  exact ⟨c1, c2, c3, rfl, hd.1, hd.2.1, hd.2.2⟩

/-- No string whose Python lowercase is the keyword all parses as an
integer: its three characters are letters, which int() rejects. -/
theorem parseIntStr_eq_none_of_pyLower_all (s : String) (h : pyLower s = "all") :
    parseIntStr s = none := by
  obtain ⟨c1, c2, c3, hdata, h1, h2, h3⟩ := pyLower_all_data s h
  obtain ⟨d1, s1, m1, p1⟩ := not_numeric_of_charLower c1 'a' h1 (by decide)
  obtain ⟨d2, s2, m2, p2⟩ := not_numeric_of_charLower c2 'l' h2 (by decide)
  obtain ⟨d3, s3, m3, p3⟩ := not_numeric_of_charLower c3 'l' h3 (by decide)
  have hstrip : pyStrip [c1, c2, c3] = [c1, c2, c3] := by
    simp [pyStrip, s1, s3]
  simp only [parseIntStr, hdata, hstrip]
  rw [if_neg m1, if_neg p1]
  simp [digitpart, d1]

theorem foldl_dedup_mem {β : Type} [DecidableEq β] (l : List β) (acc : List β) (x : β) :
    x ∈ l.foldl (fun acc x => if x ∈ acc then acc else acc ++ [x]) acc ↔
      x ∈ acc ∨ x ∈ l := by
  induction l generalizing acc with
  | nil => simp
  | cons y ys ih =>
    simp only [List.foldl_cons, ih]
    by_cases hy : y ∈ acc
    · rw [if_pos hy]
      simp only [List.mem_cons]
      constructor
      · rintro (h | h)
        exacts [Or.inl h, Or.inr (Or.inr h)]
      · rintro (h | h | h)
        exacts [Or.inl h, Or.inl (h ▸ hy), Or.inr h]
    · rw [if_neg hy]
      simp only [List.mem_append, List.mem_cons, List.mem_singleton]
      tauto

theorem mem_dedupFS {β : Type} [DecidableEq β] (l : List β) (x : β) :
    x ∈ dedupFS l ↔ x ∈ l := by
  unfold dedupFS
  rw [foldl_dedup_mem]
  simp

/-- The Cartesian product has as many rows as the product of the axis
lengths. -/
theorem cartesianProd_length (ls : List (List α)) :
    (cartesianProd ls).length = (ls.map List.length).prod := by
  induction ls with
  | nil => rfl
  | cons a rest ih =>
    simp [cartesianProd, List.length_flatten, List.map_map, Function.comp_def,
      ih, List.map_const', List.sum_replicate, smul_eq_mul, Nat.mul_comm]

theorem parseIntStr_not_all (s : String) (N : Int) (h : parseIntStr s = some N) :
    pyLower s ≠ "all" := by
  intro hc
  rw [parseIntStr_eq_none_of_pyLower_all s hc] at h
  exact Option.noConfusion h

example : parseIntStr "50" = some 50 := by decide
example : parseIntStr " -5 " = some (-5) := by decide
example : parseIntStr "1_000" = some 1000 := by decide
example : parseIntStr "1__0" = none := by decide
example : parseIntStr "all" = none := by decide
example : pyLower "All" = "all" := by decide
example : (convert_to_excel_and_download [1, 2, 3] "2" "t").2 = "t_Top2.xlsx" := by decide
example : (convert_to_excel_and_download [1, 2, 3] "ALL" "t").1 = [1, 2, 3] := by decide
example : (convert_to_excel_and_download [1, 2, 3] "x" "t").2 = "t_Top100.xlsx" := by decide

example :
    convert_to_dataframe "temp"
      { name := "temp", dims := ["time", "station"],
        coords := [[0, 1, 2], [7, 8]], data := [10, 11, 12, 13, 14, 15] } =
    Except.ok
      { columns := ["time", "station", "temp"]
        rows := [[0, 7, 10], [0, 8, 11], [1, 7, 12], [1, 8, 13], [2, 7, 14], [2, 8, 15]] } := by
  decide

example :
    convert_to_dataframe "c" { name := "c", dims := [], coords := [], data := [42] } =
    Except.error "ValueError: cannot convert a scalar to a DataFrame" := by decide

example :
    convert_to_dataframe "c" { name := "c", dims := ["t"], coords := [[0, 1]], data := [1, 2, 3] } =
    Except.error "ShapeMismatch" := by decide

example :
    (renderMainView { columns := ["t", "v"], rows := [[0, 1], [1, 3]] } "v" "10").totalRows = 2 := rfl

example :
    pivot { axes := ["time", "station"], valueName := "v",
            rows := [(["t0", "A"], 1), (["t0", "B"], 2), (["t1", "A"], 3), (["t1", "B"], 4)] }
      ["time"] ["station"] =
    Except.ok
      { rowColumns := ["time"], valueColumns := ["A", "B"]
        rows := [(["t0"], [some 1, some 2]), (["t1"], [some 3, some 4])] } := by decide

/-- C1: for every table, variable name v and limit string s, the export
file name is v_ALL.xlsx when s lowercases to the all-rows keyword,
v_Top N .xlsx when s parses as the integer N, and the default fallback
v_Top100.xlsx when s is neither. -/
theorem export_filename_spec {α : Type} (df : List α) (v s : String) :
    (pyLower s = "all" →
      (convert_to_excel_and_download df s v).2 = v ++ "_ALL.xlsx") ∧
    (∀ N : Int, parseIntStr s = some N →
      (convert_to_excel_and_download df s v).2 = v ++ "_Top" ++ toString N ++ ".xlsx") ∧
    (pyLower s ≠ "all" → parseIntStr s = none →
      (convert_to_excel_and_download df s v).2 = v ++ "_Top100.xlsx") := by
  refine ⟨?_, ?_, ?_⟩
  · intro h
    simp only [convert_to_excel_and_download, if_pos h]
    rw [show ("_ALL.xlsx" : String) = "_" ++ ("ALL" ++ ".xlsx") from rfl]
    simp [String.append_assoc]
  · intro N hN
    simp only [convert_to_excel_and_download, if_neg (parseIntStr_not_all s N hN), hN]
    simp only [String.append_assoc]
    rw [← String.append_assoc ("_" : String) "Top" (toString N ++ ".xlsx"),
      show ("_" : String) ++ "Top" = "_Top" from rfl]
  · intro hall hN
    simp only [convert_to_excel_and_download, if_neg hall, hN]
    rw [show ("_Top100.xlsx" : String) = "_" ++ ("Top100" ++ ".xlsx") from rfl]
    simp [String.append_assoc]

theorem export_filename_spec_witness :
    (convert_to_excel_and_download ([1] : List Nat) "All" "temp").2 = "temp" ++ "_ALL.xlsx" ∧
    (convert_to_excel_and_download ([1] : List Nat) "50" "temp").2 =
      "temp" ++ "_Top" ++ toString (50 : Int) ++ ".xlsx" ∧
    (convert_to_excel_and_download ([1] : List Nat) "notanumber" "temp").2 =
      "temp" ++ "_Top100.xlsx" :=
  ⟨(export_filename_spec [1] "temp" "All").1 (by decide),
   (export_filename_spec [1] "temp" "50").2.1 50 (by decide),
   (export_filename_spec [1] "temp" "notanumber").2.2 (by decide) (by decide)⟩

/-- C10: matching of the all-rows export mode is case-insensitive - any
limit string whose Python lowercase is the keyword all exports every row
and uses the ALL filename suffix. -/
theorem export_all_case_insensitive {α : Type} (df : List α) (v s : String)
    (h : pyLower s = "all") :
    (convert_to_excel_and_download df s v).1 = df ∧
    (convert_to_excel_and_download df s v).2 = v ++ "_ALL.xlsx" := by
  constructor
  · simp [convert_to_excel_and_download, if_pos h]
  · simp only [convert_to_excel_and_download, if_pos h]
    rw [show ("_ALL.xlsx" : String) = "_" ++ ("ALL" ++ ".xlsx") from rfl]
    simp [String.append_assoc]

theorem export_all_case_insensitive_witness :
    (convert_to_excel_and_download ([7, 8] : List Nat) "aLl" "temp").1 = [7, 8] ∧
    (convert_to_excel_and_download ([7, 8] : List Nat) "aLl" "temp").2 = "temp" ++ "_ALL.xlsx" :=
  export_all_case_insensitive [7, 8] "temp" "aLl" (by decide)

/-- C3: windowing with a positive integer limit N keeps exactly the first
min(N, rowcount) rows in their existing order, and the All limit applies no
truncation. -/
theorem export_windowing {α : Type} (df : List α) (v : String) :
    (∀ (s : String) (N : Int), parseIntStr s = some N → 0 < N →
      (convert_to_excel_and_download df s v).1 = df.take N.toNat ∧
      (df.take N.toNat).length = min N.toNat df.length) ∧
    (convert_to_excel_and_download df "All" v).1 = df := by
  constructor
  · intro s N hN hpos
    constructor
    · simp only [convert_to_excel_and_download, if_neg (parseIntStr_not_all s N hN), hN]
      simp [pdHead, if_pos (le_of_lt hpos)]
    · simp [List.length_take]
  · simp [convert_to_excel_and_download, show pyLower "All" = "all" from by decide]

theorem export_windowing_witness :
    (convert_to_excel_and_download ([10, 20, 30] : List Nat) "2" "x").1 = [10, 20] ∧
    (convert_to_excel_and_download ([10, 20, 30] : List Nat) "All" "x").1 = [10, 20, 30] := by
  refine ⟨?_, (export_windowing [10, 20, 30] "x").2⟩
  have h := ((export_windowing ([10, 20, 30] : List Nat) "x").1 "2" 2 (by decide) (by decide)).1
  simpa using h

/-- C2 as stated is refuted at the limit string 0: it parses to the
non-positive integer 0, and the code exports head(0), the empty table,
rather than falling back to the first 100 rows. -/
theorem export_default_limit_counterexample :
    parseIntStr "0" = some 0 ∧
    (convert_to_excel_and_download (List.range 101) "0" "v").1 = [] ∧
    (List.range 101).take 100 ≠ ([] : List Nat) := by
  refine ⟨by decide, rfl, by decide⟩

/-- C2 amended: only a limit string that is neither the all-rows keyword
nor parsable as an integer falls back to the first 100 rows; a string
parsing to a non-positive integer N is passed to head unchanged, exporting
no rows for N = 0 and all but the last |N| rows for N < 0.  The export
never fails in either case. -/
theorem export_default_limit_amended {α : Type} (df : List α) (v s : String) :
    (pyLower s ≠ "all" → parseIntStr s = none →
      (convert_to_excel_and_download df s v).1 = df.take 100) ∧
    (parseIntStr s = some 0 →
      (convert_to_excel_and_download df s v).1 = []) ∧
    (∀ N : Int, parseIntStr s = some N → N < 0 →
      (convert_to_excel_and_download df s v).1 = df.take (df.length - (-N).toNat)) := by
  refine ⟨?_, ?_, ?_⟩
  · intro hall hN
    simp only [convert_to_excel_and_download, if_neg hall, hN]
    simp [pdHead]
  · intro hN
    simp only [convert_to_excel_and_download, if_neg (parseIntStr_not_all s 0 hN), hN]
    simp [pdHead]
  · intro N hN hneg
    simp only [convert_to_excel_and_download, if_neg (parseIntStr_not_all s N hN), hN]
    simp [pdHead, if_neg (not_le.mpr hneg)]

theorem export_default_limit_amended_witness :
    (convert_to_excel_and_download ([1, 2, 3] : List Nat) "abc" "v").1 = [1, 2, 3] ∧
    (convert_to_excel_and_download ([1, 2, 3] : List Nat) "0" "v").1 = [] ∧
    (convert_to_excel_and_download ([1, 2, 3] : List Nat) "-1" "v").1 = [1, 2] := by
  refine ⟨?_, (export_default_limit_amended [1, 2, 3] "v" "0").2.1 (by decide), ?_⟩
  · have h := (export_default_limit_amended ([1, 2, 3] : List Nat) "v" "abc").1
      (by decide) (by decide)
    simpa using h
  · have h := (export_default_limit_amended ([1, 2, 3] : List Nat) "v" "-1").2.2 (-1)
      (by decide) (by decide)
    simpa using h

/-- C4: the flatten operation is deterministic - two variables with the
same name and the same data array (same axes, coordinates and values)
flatten to equal tables, rows, order and columns included. -/
theorem flatten_deterministic {α : Type} (nm : String) (v w : Variable α)
    (hname : v.name = w.name) (hdims : v.dims = w.dims)
    (hcoords : v.coords = w.coords) (hdata : v.data = w.data) :
    convert_to_dataframe nm v = convert_to_dataframe nm w := by
  have h : v = w := by
    cases v
    cases w
    simp_all
  rw [h]

theorem flatten_deterministic_witness :
    convert_to_dataframe "temp"
      { name := "temp", dims := ["t"], coords := [[0, 1]], data := [10, 20] } =
    convert_to_dataframe "temp"
      { name := "temp", dims := ["t"], coords := [[0, 1]], data := [10, 10 + 10] } :=
  flatten_deterministic "temp"
    { name := "temp", dims := ["t"], coords := [[0, 1]], data := [10, 20] }
    { name := "temp", dims := ["t"], coords := [[0, 1]], data := [10, 10 + 10] }
    rfl rfl rfl (by decide)

/-- C5 as stated is refuted at a zero-axis variable: the program never
produces the claimed one-row table for a scalar, because to_dataframe
raises ValueError on 0-dimensional arrays; at the concrete scalar variable
the flatten returns that error, not the one-row table. -/
theorem flatten_scalar_counterexample :
    convert_to_dataframe "c" scalarDemo =
      Except.error "ValueError: cannot convert a scalar to a DataFrame" ∧
    convert_to_dataframe "c" scalarDemo ≠
      Except.ok { columns := ["c"], rows := [[42]] } := by
  refine ⟨by decide, by decide⟩

/-- C5 amended: for every well-shaped variable with at least one axis,
flatten produces exactly the product of the axis lengths many rows; a
zero-axis (scalar) variable is not flattened at all - to_dataframe raises
ValueError, which surfaces to the caller, and no table is returned. -/
theorem flatten_row_count_amended {α : Type} (nm : String) (v : Variable α)
    (h : v.data.length = (v.coords.map List.length).prod) :
    (v.dims ≠ [] → ∃ df, convert_to_dataframe nm v = Except.ok df ∧
      df.rows.length = (v.coords.map List.length).prod) ∧
    (v.dims = [] → convert_to_dataframe nm v =
      Except.error "ValueError: cannot convert a scalar to a DataFrame") := by
  constructor
  · intro hd
    refine ⟨{ columns := v.dims ++ [v.name]
              rows := ((cartesianProd v.coords).zip v.data).map (fun p => p.1 ++ [p.2]) },
      ?_, ?_⟩
    · simp [convert_to_dataframe, h, hd]
    · simp [List.length_map, List.length_zip, cartesianProd_length, h]
  · intro hd
    simp [convert_to_dataframe, h, hd]

theorem flatten_row_count_amended_witness :
    ∃ df, convert_to_dataframe "temp" gridDemo = Except.ok df ∧
      df.rows.length = (gridDemo.coords.map List.length).prod :=
  (flatten_row_count_amended "temp" gridDemo (by decide)).1 (by decide)

/-- C6: a variable whose array size disagrees with the product of its
declared axis lengths makes flatten signal ShapeMismatch; no table is
returned and nothing is silently truncated. -/
theorem flatten_shape_mismatch {α : Type} (nm : String) (v : Variable α)
    (h : v.data.length ≠ (v.coords.map List.length).prod) :
    convert_to_dataframe nm v = Except.error "ShapeMismatch" := by
  simp [convert_to_dataframe, h]

theorem flatten_shape_mismatch_witness :
    convert_to_dataframe "c"
      { name := "c", dims := ["t"], coords := [[0, 1]], data := [1, 2, 3] } =
    Except.error "ShapeMismatch" :=
  flatten_shape_mismatch "c"
    { name := "c", dims := ["t"], coords := [[0, 1]], data := [1, 2, 3] } (by decide)

/-- C7: when two distinct column-axis value combinations stringify to the
same column name, the pivot engine signals ColumnNameCollision instead of
silently overwriting a column.  (Pivot is modelled from the spec; the
repository has no pivot code.) -/
theorem pivot_collision_error {α : Type} (t : PivotInput α)
    (rowAxes colAxes : List String) (c1 c2 : List String)
    (h1 : c1 ∈ colCombos t colAxes) (h2 : c2 ∈ colCombos t colAxes)
    (hne : c1 ≠ c2) (hj : joinSep c1 = joinSep c2) :
    pivot t rowAxes colAxes = Except.error PivotError.columnNameCollision := by
  have hcol : colAxes ≠ [] := by
    intro he
    subst he
    have e1 : c1 = [] := by
      obtain ⟨r, -, hr⟩ := List.mem_map.mp ((mem_dedupFS _ c1).mp h1)
      simp [axisValues] at hr
      exact hr
    have e2 : c2 = [] := by
      obtain ⟨r, -, hr⟩ := List.mem_map.mp ((mem_dedupFS _ c2).mp h2)
      simp [axisValues] at hr
      exact hr
    exact hne (e1.trans e2.symm)
  have hnd : ¬ ((colCombos t colAxes).map joinSep).Nodup := by
    intro hnd
    exact hne (List.inj_on_of_nodup_map hnd h1 h2 hj)
  simp only [pivot, if_neg hcol, if_neg hnd]

theorem pivot_collision_error_witness :
    pivot collisionDemo [] ["a", "b"] = Except.error PivotError.columnNameCollision :=
  pivot_collision_error collisionDemo [] ["a", "b"] ["x_y", "z"] ["x", "y_z"]
    (by decide) (by decide) (by decide) (by decide)

/-- C8: the descriptive-statistics block is computed over the full
flattened table - it does not depend on the preview limit, and it equals
the block of the un-windowed table, whose preview under the All limit is
the full row list. -/
theorem describe_full_table (df : DataFrame ℚ) (var l1 l2 : String) :
    (renderMainView df var l1).stats = (renderMainView df var l2).stats ∧
    (renderMainView df var l1).stats = describeQ (selectColumn df var) ∧
    (renderMainView df var "All").preview = Except.ok df.rows := by
  refine ⟨rfl, rfl, ?_⟩
  simp [renderMainView, show pyLower "All" = "all" from by decide]

/-- C9 fails on the code: uploading a different payload does not invalidate
the flatten cache (st.cache_data is never cleared and its key is the
variable name alone), so a request for temp against the new payload [1]
returns the table flattened from the old payload [0]; a fresh flatten of
the new payload's temp differs.  Even the remove-file branch, the only
clearing in the program, clears st.cache_resource alone and still serves
the stale table. -/
theorem stale_flatten_cache_bug :
    (serveRequest demoDecode sessionAfterA [1] "temp").1 =
      Except.ok { columns := ["t", "temp"], rows := [[0, 10], [1, 20]] } ∧
    convert_to_dataframe "temp"
      { name := "temp", dims := ["t"], coords := [[0, 1]], data := [30, 40] } =
      Except.ok { columns := ["t", "temp"], rows := [[0, 30], [1, 40]] } ∧
    (serveRequest demoDecode (clearOnNoFile sessionAfterA) [1] "temp").1 ≠
      Except.ok { columns := ["t", "temp"], rows := [[0, 30], [1, 40]] } := by
  refine ⟨by decide, by decide, by decide⟩

end NcToExcel
